import Mathlib

/-!
Verification of the bank-statement parsing / field-mapping engine and the
keyword-based transaction categorization engine of the expense-tracker
repository, as a shallow embedding in Lean.

String operations mirror the JavaScript ones used by the source
(`toLowerCase`, `trim`, `String.prototype.includes`) as executable
functions over `List Char`.  Browser `localStorage` slots are modelled by
`Stored α`: the slot is absent, holds unparseable (corrupt) data, or holds
a parsed value of type `α`; functions that read and write storage take and
return such values explicitly.
-/

/-- JS `String.prototype.toLowerCase` (ASCII range, as used by the source). -/
def lowerStr (s : String) : String := String.mk (s.data.map Char.toLower)

def trimChars (l : List Char) : List Char :=
  ((l.dropWhile Char.isWhitespace).reverse.dropWhile Char.isWhitespace).reverse

/-- JS `String.prototype.trim`. -/
def trimStr (s : String) : String := String.mk (trimChars s.data)

def infixChars : List Char → List Char → Bool
  | needle, [] => needle.isEmpty
  | needle, c :: t => needle.isPrefixOf (c :: t) || infixChars needle t

/-- JS `hay.includes(needle)`: substring containment. -/
def strContains (hay needle : String) : Bool := infixChars needle.data hay.data

/-- One browser `localStorage` slot: absent, unparseable, or a parsed value. -/
inductive Stored (α : Type) : Type
  | absent : Stored α
  | corrupt : Stored α
  | valid (a : α) : Stored α
deriving DecidableEq, Repr

/-- `CategoryMapping` (src/types): an object keyword → category; modelled as an
association list in insertion order, matching `Object.entries` iteration. -/
abbrev CategoryMapping : Type := List (String × String)

/-- The persisted user keyword-rule slot (`expense-tracker-user-mappings`). -/
abbrev UserRuleStore : Type := Stored CategoryMapping

/-- `SUGGESTED_MAPPINGS` from src/utils/categoryMappings.ts, in source order. -/
def SUGGESTED_MAPPINGS : CategoryMapping :=
  [ ("zomato", "Food & Dining"), ("swiggy", "Food & Dining"),
    ("dominos", "Food & Dining"), ("kfc", "Food & Dining"),
    ("mcdonalds", "Food & Dining"), ("restaurant", "Food & Dining"),
    ("cafe", "Food & Dining"), ("starbucks", "Food & Dining"),
    ("food", "Food & Dining"), ("dining", "Food & Dining"),
    ("amazon", "Shopping"), ("flipkart", "Shopping"), ("myntra", "Shopping"),
    ("ajio", "Shopping"), ("nykaa", "Shopping"), ("savana", "Shopping"),
    ("reliance", "Shopping"), ("shopping", "Shopping"), ("mall", "Shopping"),
    ("big basket", "Groceries"), ("grofers", "Groceries"),
    ("blinkit", "Groceries"), ("zepto", "Groceries"),
    ("uber", "Transportation"), ("ola", "Transportation"),
    ("rapido", "Transportation"), ("metro", "Transportation"),
    ("petrol", "Transportation"), ("fuel", "Transportation"),
    ("parking", "Transportation"), ("taxi", "Transportation"),
    ("bus", "Transportation"),
    ("netflix", "Entertainment"), ("amazon prime", "Entertainment"),
    ("hotstar", "Entertainment"), ("spotify", "Entertainment"),
    ("youtube", "Entertainment"), ("movie", "Entertainment"),
    ("cinema", "Entertainment"), ("bookmyshow", "Entertainment"),
    ("game", "Entertainment"),
    ("electricity", "Bills & Utilities"), ("gas", "Bills & Utilities"),
    ("water", "Bills & Utilities"), ("internet", "Bills & Utilities"),
    ("broadband", "Bills & Utilities"), ("mobile", "Bills & Utilities"),
    ("airtel", "Bills & Utilities"), ("jio", "Bills & Utilities"),
    ("bsnl", "Bills & Utilities"), ("bill", "Bills & Utilities"),
    ("hospital", "Healthcare"), ("pharmacy", "Healthcare"),
    ("medical", "Healthcare"), ("doctor", "Healthcare"),
    ("medicine", "Healthcare"), ("clinic", "Healthcare"),
    ("salary", "Salary"), ("bonus", "Bonus"),
    ("dividend", "Investment Returns"), ("interest", "Investment Returns"),
    ("refund", "Refunds"), ("cashback", "Cashback"),
    ("atm", "Banking"), ("bank", "Banking"), ("transfer", "Transfers"),
    ("upi", "UPI/Digital Payments"), ("paytm", "UPI/Digital Payments"),
    ("phonepe", "UPI/Digital Payments"), ("gpay", "UPI/Digital Payments"),
    ("googlepay", "UPI/Digital Payments") ]

/-- `loadUserMappings`: parse the user slot; absent or corrupt data yields `{}`
(a parse error is caught, logged, the slot removed, and `{}` returned). -/
def loadUserMappings (s : UserRuleStore) : CategoryMapping :=
  match s with
  | .valid m => m
  | _ => []

/-- `getActiveMappings`: the user set, or a copy of `SUGGESTED_MAPPINGS` when
the user has no mappings. -/
def getActiveMappings (s : UserRuleStore) : CategoryMapping :=
  let userMappings := loadUserMappings s
  if userMappings.length = 0 then SUGGESTED_MAPPINGS else userMappings

/-- `addOrUpdateMapping`: set `mappings[keyword.toLowerCase().trim()]` and save.
On an association list, replace the binding if the key exists, else append. -/
def addOrUpdateMapping (keyword category : String) (s : UserRuleStore) :
    UserRuleStore :=
  let mappings := loadUserMappings s
  let k := trimStr (lowerStr keyword)
  let v := trimStr category
  .valid (if mappings.any (fun p => p.1 = k) then
    mappings.map (fun p => if p.1 = k then (k, v) else p)
  else mappings ++ [(k, v)])

/-- `deleteMapping`: `delete mappings[keyword.toLowerCase().trim()]`, then save. -/
def deleteMapping (keyword : String) (s : UserRuleStore) : UserRuleStore :=
  let mappings := loadUserMappings s
  .valid (mappings.filter (fun p => p.1 ≠ trimStr (lowerStr keyword)))

/-- `initializeUserMappings`: seed the user slot with `SUGGESTED_MAPPINGS`
only when the loaded user set is empty. -/
def initializeUserMappings (s : UserRuleStore) : UserRuleStore :=
  if (loadUserMappings s).length = 0 then .valid SUGGESTED_MAPPINGS else s

/-- `isCreditTransaction` (src/utils/categoryMappings.ts). -/
def isCreditTransaction (description : String) : Bool :=
  let lowerDesc := lowerStr description
  [ "salary", "sal", "wage", "pay", "deposit", "credit", "credited",
    "interest", "dividend", "bonus", "transfer in", "received",
    "incoming", "refund", "cashback", "reward"
  ].any (fun keyword => strContains lowerDesc keyword)

/-- `isSalaryTransaction` (src/utils/categoryMappings.ts). -/
def isSalaryTransaction (description : String) : Bool :=
  let lowerDesc := lowerStr description
  ["salary", "sal", "wage", "payroll", "monthly pay"].any
    (fun keyword => strContains lowerDesc keyword)

/-- `isBonusTransaction` (src/utils/categoryMappings.ts). -/
def isBonusTransaction (description : String) : Bool :=
  let lowerDesc := lowerStr description
  ["bonus", "incentive", "commission", "reward"].any
    (fun keyword => strContains lowerDesc keyword)

/-- `isInvestmentReturn` (src/utils/categoryMappings.ts). -/
def isInvestmentReturn (description : String) : Bool :=
  let lowerDesc := lowerStr description
  ["dividend", "interest", "investment", "mutual fund", "sip"].any
    (fun keyword => strContains lowerDesc keyword)

/-- `isRefundTransaction` (src/utils/categoryMappings.ts). -/
def isRefundTransaction (description : String) : Bool :=
  let lowerDesc := lowerStr description
  ["refund", "return", "reversal", "chargeback"].any
    (fun keyword => strContains lowerDesc keyword)

/-- `isCashbackTransaction` (src/utils/categoryMappings.ts). -/
def isCashbackTransaction (description : String) : Bool :=
  let lowerDesc := lowerStr description
  ["cashback", "cash back", "reward", "points"].any
    (fun keyword => strContains lowerDesc keyword)

/-- The fallback regexes of `categorizeTransaction`: each is a case-insensitive
alternation of literal words, so `/a|b/i.test(d)` is "some word occurs in
`d.toLowerCase()`".  Listed in source order. -/
def fallbackPatterns : List (List String × String) :=
  [ (["food", "restaurant", "cafe", "dining", "meal"], "Food & Dining"),
    (["shop", "store", "mall", "purchase", "buy"], "Shopping"),
    (["fuel", "petrol", "gas", "transport", "taxi", "uber", "ola"],
      "Transportation"),
    (["medical", "health", "doctor", "pharmacy", "hospital"], "Healthcare"),
    (["bill", "utility", "electric", "water", "internet", "mobile"],
      "Bills & Utilities"),
    (["entertainment", "movie", "game", "music", "netflix"], "Entertainment"),
    (["grocery", "vegetables", "fruits", "supermarket"], "Groceries") ]

/-- `pattern.test(description)` for one fallback pattern. -/
def testPattern (words : List String) (description : String) : Bool :=
  words.any (fun w => strContains (lowerStr description) w)

/-- `categorizeTransaction` (src/utils/categoryMappings.ts): first matching
active keyword, else credit heuristics, else first matching fallback
pattern, else `"Miscellaneous"`. -/
def categorizeTransaction (s : UserRuleStore) (description : String) : String :=
  let lowerDescription := trimStr (lowerStr description)
  let mappings := getActiveMappings s
  match mappings.find? (fun kc => strContains lowerDescription (lowerStr kc.1)) with
  | some kc => kc.2
  | none =>
    if isCreditTransaction description then
      if isSalaryTransaction description then "Salary"
      else if isBonusTransaction description then "Bonus"
      else if isInvestmentReturn description then "Investment Returns"
      else if isRefundTransaction description then "Refunds"
      else if isCashbackTransaction description then "Cashback"
      else "Credits"
    else
      match fallbackPatterns.find? (fun pc => testPattern pc.1 description) with
      | some pc => pc.2
      | none => "Miscellaneous"

/-- `loadUserMappings` with its storage side effect made explicit: a corrupt
slot is removed (`localStorage.removeItem`) inside the catch handler. -/
def loadUserMappingsST (s : UserRuleStore) : CategoryMapping × UserRuleStore :=
  match s with
  | .valid m => (m, .valid m)
  | .absent => ([], .absent)
  | .corrupt => ([], .absent)

/-- `getActiveMappings`, state-passing form. -/
def getActiveMappingsST (s : UserRuleStore) : CategoryMapping × UserRuleStore :=
  let p := loadUserMappingsST s
  if p.1.length = 0 then (SUGGESTED_MAPPINGS, p.2) else p

/-- `categorizeTransaction`, state-passing form: the returned store is the
storage state after the call (the function itself never writes, but the
load it performs drops a corrupt slot). -/
def categorizeTransactionST (s : UserRuleStore) (description : String) :
    String × UserRuleStore :=
  let lowerDescription := trimStr (lowerStr description)
  let p := getActiveMappingsST s
  (match p.1.find? (fun kc => strContains lowerDescription (lowerStr kc.1)) with
  | some kc => kc.2
  | none =>
    if isCreditTransaction description then
      if isSalaryTransaction description then "Salary"
      else if isBonusTransaction description then "Bonus"
      else if isInvestmentReturn description then "Investment Returns"
      else if isRefundTransaction description then "Refunds"
      else if isCashbackTransaction description then "Cashback"
      else "Credits"
    else
      match fallbackPatterns.find? (fun pc => testPattern pc.1 description) with
      | some pc => pc.2
      | none => "Miscellaneous", p.2)

/-- `FieldMapping` (src/types): one bank-statement layout.  Optional columns
are `Option String` (`undefined` ↦ `none`). -/
structure FieldMapping where
  id : String
  bankName : String
  starterWord : String
  dateColumn : String
  descriptionColumn : String
  amountColumn : Option String := none
  withdrawalColumn : Option String := none
  depositColumn : Option String := none
  typeColumn : Option String := none
  isDefault : Bool
  createdAt : String
deriving DecidableEq, Repr

/-- `DEFAULT_MAPPINGS` (utils/fieldMappings): the five built-in bank profiles.
`now` stands for the `new Date().toISOString()` evaluated when the module
loads; it is one fixed string for a session. -/
def DEFAULT_MAPPINGS (now : String) : List FieldMapping :=
  [ { id := "hdfc-default", bankName := "HDFC Bank", starterWord := "Date",
      dateColumn := "Date", descriptionColumn := "Narration",
      withdrawalColumn := some "Withdrawal Amt.",
      depositColumn := some "Deposit Amt.",
      isDefault := true, createdAt := now },
    { id := "icici-default", bankName := "ICICI Bank",
      starterWord := "Transaction", dateColumn := "Transaction Date",
      descriptionColumn := "Transaction Remarks",
      withdrawalColumn := some "Withdrawal Amount (INR )",
      depositColumn := some "Deposit Amount (INR )",
      isDefault := true, createdAt := now },
    { id := "sbi-default", bankName := "State Bank of India",
      starterWord := "Txn", dateColumn := "Txn Date",
      descriptionColumn := "Description",
      withdrawalColumn := some "Debit", depositColumn := some "Credit",
      isDefault := true, createdAt := now },
    { id := "axis-default", bankName := "Axis Bank", starterWord := "Tran",
      dateColumn := "Tran Date", descriptionColumn := "Particulars",
      withdrawalColumn := some "Debit", depositColumn := some "Credit",
      isDefault := true, createdAt := now },
    { id := "generic-default", bankName := "Generic Format",
      starterWord := "Date", dateColumn := "Date",
      descriptionColumn := "Description",
      amountColumn := some "Amount", typeColumn := some "Type",
      isDefault := true, createdAt := now } ]

/-- A per-field diff of a `FieldMapping` against its seed (`Partial<FieldMapping>`
in the source): `none` means the key is absent from the diff object.  On an
optional column, `some none` is a key present with value `undefined` — a
state the in-memory `changes` object can hold, but which `JSON.stringify`
drops when the diff is persisted (see `stringifyDiff`). -/
structure FieldDiff where
  id : Option String := none
  bankName : Option String := none
  starterWord : Option String := none
  dateColumn : Option String := none
  descriptionColumn : Option String := none
  amountColumn : Option (Option String) := none
  withdrawalColumn : Option (Option String) := none
  depositColumn : Option (Option String) := none
  typeColumn : Option (Option String) := none
  isDefault : Option Bool := none
  createdAt : Option String := none
deriving DecidableEq, Repr

/-- One key of the diff loop in `saveFieldMappings`:
`if (mapping[key] !== original[key]) changes[key] = mapping[key]`. -/
def diffField {α : Type} [DecidableEq α] (new old : α) : Option α :=
  if new = old then none else some new

/-- The diff object `changes` built by `saveFieldMappings` for one built-in. -/
def diffFM (m orig : FieldMapping) : FieldDiff :=
  { id := diffField m.id orig.id,
    bankName := diffField m.bankName orig.bankName,
    starterWord := diffField m.starterWord orig.starterWord,
    dateColumn := diffField m.dateColumn orig.dateColumn,
    descriptionColumn := diffField m.descriptionColumn orig.descriptionColumn,
    amountColumn := diffField m.amountColumn orig.amountColumn,
    withdrawalColumn := diffField m.withdrawalColumn orig.withdrawalColumn,
    depositColumn := diffField m.depositColumn orig.depositColumn,
    typeColumn := diffField m.typeColumn orig.typeColumn,
    isDefault := diffField m.isDefault orig.isDefault,
    createdAt := diffField m.createdAt orig.createdAt }

/-- The object spread `{...mapping, ...modifiedDefaults[mapping.id]}`. -/
def applyDiff (m : FieldMapping) (p : FieldDiff) : FieldMapping :=
  { id := p.id.getD m.id,
    bankName := p.bankName.getD m.bankName,
    starterWord := p.starterWord.getD m.starterWord,
    dateColumn := p.dateColumn.getD m.dateColumn,
    descriptionColumn := p.descriptionColumn.getD m.descriptionColumn,
    amountColumn := p.amountColumn.getD m.amountColumn,
    withdrawalColumn := p.withdrawalColumn.getD m.withdrawalColumn,
    depositColumn := p.depositColumn.getD m.depositColumn,
    typeColumn := p.typeColumn.getD m.typeColumn,
    isDefault := p.isDefault.getD m.isDefault,
    createdAt := p.createdAt.getD m.createdAt }

/-- The `modifiedDefaults` object: id → stored diff, insertion-ordered. -/
abbrev DiffStore : Type := List (String × FieldDiff)

/-- `modifiedDefaults[id]`. -/
def lookupDiff (ds : DiffStore) (id : String) : Option FieldDiff :=
  (ds.find? (fun p => p.1 = id)).map (fun p => p.2)

/-- `loadFieldMappings` (utils/fieldMappings): built-ins with saved per-field
modifications applied, followed by the saved custom mappings; the
surrounding try/catch returns the bare `DEFAULT_MAPPINGS` if either parse
throws.  `customs` is the `expense-tracker-field-mappings` slot and
`defaults` the `expense-tracker-default-field-mappings` slot. -/
def loadFieldMappings (now : String) (customs : Stored (List FieldMapping))
    (defaults : Stored DiffStore) : List FieldMapping :=
  match customs, defaults with
  | .corrupt, _ => DEFAULT_MAPPINGS now
  | _, .corrupt => DEFAULT_MAPPINGS now
  | c, d =>
    let customMappings := match c with | .valid l => l | _ => []
    let modifiedDefaults : DiffStore := match d with | .valid l => l | _ => []
    ((DEFAULT_MAPPINGS now).map (fun mapping =>
      match lookupDiff modifiedDefaults mapping.id with
      | some p => applyDiff mapping p
      | none => mapping)) ++ customMappings

/-- JS `JSON.stringify` on one diff key: a key present with value `undefined`
(`some none`) is dropped from the serialized object. -/
def stringifyKey (v : Option (Option String)) : Option (Option String) :=
  match v with
  | some none => none
  | x => x

/-- The persisted form of a diff object: `JSON.stringify` keeps defined-valued
keys and drops `undefined`-valued ones.  Only the optional-column fields of
a `FieldMapping` can diff to an `undefined` value; the required string
fields and the flag always diff to defined values. -/
def stringifyDiff (p : FieldDiff) : FieldDiff :=
  { id := p.id, bankName := p.bankName, starterWord := p.starterWord,
    dateColumn := p.dateColumn, descriptionColumn := p.descriptionColumn,
    amountColumn := stringifyKey p.amountColumn,
    withdrawalColumn := stringifyKey p.withdrawalColumn,
    depositColumn := stringifyKey p.depositColumn,
    typeColumn := stringifyKey p.typeColumn,
    isDefault := p.isDefault, createdAt := p.createdAt }

/-- `saveFieldMappings` (utils/fieldMappings): built-ins are stored as diffs
against the seed (nothing stored when the in-memory diff is empty, or when
the id is unknown); non-built-ins are stored in full.  The emptiness check
(`Object.keys(changes).length > 0`) runs on the in-memory `changes` object,
but what reaches storage is its `JSON.stringify` image, which drops
`undefined`-valued keys.  Returns the new contents of the two storage
slots (diffs, customs). -/
def saveFieldMappings (now : String) (mappings : List FieldMapping) :
    DiffStore × List FieldMapping :=
  mappings.foldl (fun acc mapping =>
    if mapping.isDefault then
      match (DEFAULT_MAPPINGS now).find? (fun d => d.id = mapping.id) with
      | some original =>
        let changes := diffFM mapping original
        if changes = {} then acc
        else (acc.1 ++ [(mapping.id, stringifyDiff changes)], acc.2)
      | none => acc
    else (acc.1, acc.2 ++ [mapping])) ([], [])

/-- `getDefaultMapping` (utils/fieldMappings). -/
def getDefaultMapping (now : String) (customs : Stored (List FieldMapping))
    (defaults : Stored DiffStore) : Option FieldMapping :=
  let mappings := loadFieldMappings now customs defaults
  match mappings.find? (fun m => m.id = "hdfc-default") with
  | some m => some m
  | none => mappings.head?

/-- The `options` argument of `createFieldMapping`. -/
structure MappingOptions where
  amountColumn : Option String := none
  withdrawalColumn : Option String := none
  depositColumn : Option String := none
  typeColumn : Option String := none
deriving DecidableEq, Repr

/-- `createFieldMapping` (utils/fieldMappings).  `ts` stands for the
`Date.now()` value used in the generated id and `iso` for the
`new Date().toISOString()` timestamp. -/
def createFieldMapping (ts iso : String)
    (bankName starterWord dateColumn descriptionColumn : String)
    (options : MappingOptions) : FieldMapping :=
  { id := "custom-" ++ ts, bankName, starterWord, dateColumn, descriptionColumn,
    amountColumn := options.amountColumn,
    withdrawalColumn := options.withdrawalColumn,
    depositColumn := options.depositColumn,
    typeColumn := options.typeColumn,
    isDefault := false, createdAt := iso }

/-- The `newMapping` form state of `FieldMappingManager`. -/
structure NewMappingForm where
  bankName : String
  starterWord : String
  dateColumn : String
  descriptionColumn : String
  amountColumn : String
  withdrawalColumn : String
  depositColumn : String
  typeColumn : String
  useAmountColumn : Bool
deriving DecidableEq, Repr

/-- JS `s || undefined` on a string: `""` is falsy. -/
def strOrNone (s : String) : Option String := if s = "" then none else some s

/-- `handleAddMapping` (FieldMappingManager): validates the four required text
fields, then builds the mapping via `createFieldMapping`; `useAmountColumn`
selects which amount representation the options carry, each field passed as
`trim() || undefined`.  Returns `none` when validation rejects the form. -/
def handleAddMapping (ts iso : String) (f : NewMappingForm) :
    Option FieldMapping :=
  if trimStr f.bankName = "" || trimStr f.starterWord = "" ||
      trimStr f.dateColumn = "" || trimStr f.descriptionColumn = "" then
    none
  else
    some (createFieldMapping ts iso (trimStr f.bankName) (trimStr f.starterWord)
      (trimStr f.dateColumn) (trimStr f.descriptionColumn)
      { amountColumn :=
          if f.useAmountColumn then strOrNone (trimStr f.amountColumn) else none,
        withdrawalColumn :=
          if f.useAmountColumn then none else strOrNone (trimStr f.withdrawalColumn),
        depositColumn :=
          if f.useAmountColumn then none else strOrNone (trimStr f.depositColumn),
        typeColumn := strOrNone (trimStr f.typeColumn) })

/-- The spec's amount-representation invariant: exactly one of amount-column
mode or withdrawal/deposit mode is populated. -/
def amountInvariant (m : FieldMapping) : Bool :=
  (m.amountColumn.isSome && m.withdrawalColumn.isNone && m.depositColumn.isNone) ||
  (m.amountColumn.isNone && m.withdrawalColumn.isSome && m.depositColumn.isSome)

/-- `ParsedTransaction` (src/types): one row's extraction result.  Amounts are
modelled as rationals. -/
structure ParsedTransaction where
  date : String
  description : String
  amount : Rat
  type : String
  success : Bool
  error : Option String := none
deriving DecidableEq, Repr

/-- Modelled from the spec: the Statement Parser's row extraction in
amount-column mode with no `typeColumn` configured (spec §4.4 step 4; the
implementing module `utils/excelParser` is imported by FileUpload but is
not present in the corpus).  Per the spec, an empty description fails the
row; otherwise the direction is inferred from the amount's sign — negative
⇒ debit, non-negative ⇒ credit — and the absolute value is stored as
`amount`. -/
def parseAmountModeRow (date description : String) (amountCell : Rat) :
    ParsedTransaction :=
  if description = "" then
    { date, description, amount := 0, type := "debit", success := false,
      error := some "empty description" }
  else
    { date, description,
      amount := if amountCell < 0 then -amountCell else amountCell,
      type := if amountCell < 0 then "debit" else "credit",
      success := true }

/-- A `FieldMappingManager` add-form in amount mode whose amount column was
left blank. -/
def blankAmountForm : NewMappingForm :=
  { bankName := "Test Bank", starterWord := "Date", dateColumn := "Date",
    descriptionColumn := "Description", amountColumn := "",
    withdrawalColumn := "", depositColumn := "", typeColumn := "",
    useAmountColumn := true }

/-- The mapping `handleAddMapping` builds from `blankAmountForm` at timestamps
`"0"`/`"t0"`: no amount representation at all. -/
def blankAmountMapping : FieldMapping :=
  { id := "custom-0", bankName := "Test Bank", starterWord := "Date",
    dateColumn := "Date", descriptionColumn := "Description",
    isDefault := false, createdAt := "t0" }

/-- The generic built-in profile with its one optional `typeColumn` removed
(set to `undefined`), at session timestamp `"T"`: the modification whose
diff entry `JSON.stringify` drops. -/
def genericNoType : FieldMapping :=
  { id := "generic-default", bankName := "Generic Format", starterWord := "Date",
    dateColumn := "Date", descriptionColumn := "Description",
    amountColumn := some "Amount", typeColumn := none,
    isDefault := true, createdAt := "T" }

/-- C1: `categorizeTransaction` normalizes the description to lower case and
returns the category of the first keyword of the active rule set, in the
rule set's iteration order, that occurs as a substring of the normalized
description; with the default rules, where `"zomato"` maps to
`"Food & Dining"`, the description `"ZOMATO ORDER #123"` is categorized
`"Food & Dining"` (matching is case-insensitive). -/
theorem c1_first_keyword_wins :
    (∀ (s : UserRuleStore) (description : String) (kc : String × String),
      (getActiveMappings s).find?
          (fun p => strContains (trimStr (lowerStr description)) (lowerStr p.1)) =
        some kc →
      categorizeTransaction s description = kc.2) ∧
    categorizeTransaction .absent "ZOMATO ORDER #123" = "Food & Dining" := by
  constructor
  · intro s description kc h
    simp only [categorizeTransaction, h]
  · decide

/-- Witness for C1 at a concrete rule set and description. -/
theorem c1_first_keyword_wins_witness :
    (getActiveMappings .absent).find?
        (fun p => strContains (trimStr (lowerStr "UBER TRIP 42")) (lowerStr p.1)) =
      some ("uber", "Transportation") ∧
    categorizeTransaction .absent "UBER TRIP 42" = "Transportation" :=
  ⟨by decide,
    c1_first_keyword_wins.1 .absent "UBER TRIP 42" ("uber", "Transportation")
      (by decide)⟩

/-- C2: with no keyword match and the credit heuristics not triggered,
`categorizeTransaction` returns the category of the first matching
fallback pattern, and `"Miscellaneous"` when none matches; in particular a
description missing the food and shopping patterns but matching the
transportation pattern yields `"Transportation"`. -/
theorem c2_fallback_patterns :
    ∀ (s : UserRuleStore) (description : String),
      (getActiveMappings s).find?
          (fun p => strContains (trimStr (lowerStr description)) (lowerStr p.1)) =
        none →
      isCreditTransaction description = false →
      (∀ pc : List String × String,
        fallbackPatterns.find? (fun q => testPattern q.1 description) = some pc →
          categorizeTransaction s description = pc.2) ∧
      (fallbackPatterns.find? (fun q => testPattern q.1 description) = none →
        categorizeTransaction s description = "Miscellaneous") ∧
      (testPattern ["food", "restaurant", "cafe", "dining", "meal"] description
          = false →
        testPattern ["shop", "store", "mall", "purchase", "buy"] description
          = false →
        testPattern ["fuel", "petrol", "gas", "transport", "taxi", "uber", "ola"]
            description = true →
        categorizeTransaction s description = "Transportation") := by
  intro s description hk hc
  refine ⟨?_, ?_, ?_⟩
  · intro pc hp
    simp only [categorizeTransaction, hk, hc, hp, Bool.false_eq_true, if_false]
  · intro hp
    simp only [categorizeTransaction, hk, hc, hp, Bool.false_eq_true, if_false]
  · intro h1 h2 h3
    simp only [categorizeTransaction, hk, hc, Bool.false_eq_true, if_false,
      fallbackPatterns, List.find?, h1, h2, h3]

/-- Witness for C2: with rule set `{"xyz": "Z"}`, the description `"fuelx"`
matches no keyword, is not credit-like, and hits the transportation
pattern. -/
theorem c2_fallback_patterns_witness :
    categorizeTransaction (.valid [("xyz", "Z")]) "fuelx" = "Transportation" :=
  (c2_fallback_patterns (.valid [("xyz", "Z")]) "fuelx" (by decide)
      (by decide)).2.2 (by decide) (by decide) (by decide)

/-- C3: with no keyword match but a credit-indicating description,
`categorizeTransaction` returns the first matching specialized income
category in the fixed order Salary, Bonus, Investment Returns, Refunds,
Cashback, and `"Credits"` when no family matches; the fallback patterns
are never consulted (the result is fixed by the credit heuristics alone). -/
theorem c3_credit_heuristics :
    ∀ (s : UserRuleStore) (description : String),
      (getActiveMappings s).find?
          (fun p => strContains (trimStr (lowerStr description)) (lowerStr p.1)) =
        none →
      isCreditTransaction description = true →
      (isSalaryTransaction description = true →
        categorizeTransaction s description = "Salary") ∧
      (isSalaryTransaction description = false →
        isBonusTransaction description = true →
        categorizeTransaction s description = "Bonus") ∧
      (isSalaryTransaction description = false →
        isBonusTransaction description = false →
        isInvestmentReturn description = true →
        categorizeTransaction s description = "Investment Returns") ∧
      (isSalaryTransaction description = false →
        isBonusTransaction description = false →
        isInvestmentReturn description = false →
        isRefundTransaction description = true →
        categorizeTransaction s description = "Refunds") ∧
      (isSalaryTransaction description = false →
        isBonusTransaction description = false →
        isInvestmentReturn description = false →
        isRefundTransaction description = false →
        isCashbackTransaction description = true →
        categorizeTransaction s description = "Cashback") ∧
      (isSalaryTransaction description = false →
        isBonusTransaction description = false →
        isInvestmentReturn description = false →
        isRefundTransaction description = false →
        isCashbackTransaction description = false →
        categorizeTransaction s description = "Credits") := by
  intro s description hk hc
  refine ⟨?_, ?_, ?_, ?_, ?_, ?_⟩ <;>
    (intros; simp_all only [categorizeTransaction, Bool.false_eq_true, if_false,
      if_true])

/-- Witness for C3: `"deposit at mall"` is credit-like (`"deposit"`), matches
no specialized income family, so it yields `"Credits"` even though the
shopping fallback pattern (`"mall"`) would match. -/
theorem c3_credit_heuristics_witness :
    categorizeTransaction (.valid [("q", "Q")]) "deposit at mall" = "Credits" :=
  (c3_credit_heuristics (.valid [("q", "Q")]) "deposit at mall" (by decide)
      (by decide)).2.2.2.2.2 (by decide) (by decide) (by decide) (by decide)
      (by decide)

/-- C9: `categorizeTransaction` is deterministic — running it again on the
storage state left by a first run returns the same category, and the
state-passing form agrees with the pure function. -/
theorem c9_categorize_deterministic :
    ∀ (s : UserRuleStore) (description : String),
      (categorizeTransactionST s description).1 =
        (categorizeTransactionST (categorizeTransactionST s description).2
          description).1 ∧
      (categorizeTransactionST s description).1 =
        categorizeTransaction s description := by
  intro s description
  cases s with
  | absent => exact ⟨rfl, rfl⟩
  | corrupt => exact ⟨rfl, rfl⟩
  | valid m =>
    by_cases hm : m.length = 0 <;>
      simp [categorizeTransactionST, getActiveMappingsST, loadUserMappingsST,
        categorizeTransaction, getActiveMappings, loadUserMappings, hm]

/-- C6: the Mapping Store's load operations never fail — absent or corrupt
storage yields the built-in defaults: `loadFieldMappings` returns the
unmodified built-in mapping set, and the keyword side loads an empty user
set, so `getActiveMappings` returns the suggested rules. -/
theorem c6_load_falls_back_to_defaults :
    (∀ now : String, loadFieldMappings now .absent .absent = DEFAULT_MAPPINGS now) ∧
    (∀ (now : String) (d : Stored DiffStore),
      loadFieldMappings now .corrupt d = DEFAULT_MAPPINGS now) ∧
    (∀ (now : String) (c : Stored (List FieldMapping)),
      loadFieldMappings now c .corrupt = DEFAULT_MAPPINGS now) ∧
    getActiveMappings .absent = SUGGESTED_MAPPINGS ∧
    getActiveMappings .corrupt = SUGGESTED_MAPPINGS ∧
    loadUserMappings .absent = [] ∧ loadUserMappings .corrupt = [] := by
  refine ⟨fun now => rfl, fun now d => ?_, fun now c => ?_, rfl, rfl, rfl, rfl⟩
  · cases d <;> rfl
  · cases c <;> rfl

/-- C7: `initializeUserMappings` seeds the suggested defaults only when the
persisted user rule set is empty; a non-empty persisted set is left
unchanged, and the operation is idempotent. -/
theorem c7_initialize_only_if_empty :
    (∀ m : CategoryMapping, m ≠ [] →
      initializeUserMappings (.valid m) = .valid m) ∧
    (∀ s : UserRuleStore, loadUserMappings s = [] →
      initializeUserMappings s = .valid SUGGESTED_MAPPINGS) ∧
    (∀ s : UserRuleStore,
      initializeUserMappings (initializeUserMappings s) =
        initializeUserMappings s) := by
  refine ⟨?_, ?_, ?_⟩
  · intro m hm
    simp [initializeUserMappings, loadUserMappings, List.length_eq_zero, hm]
  · intro s hs
    simp [initializeUserMappings, hs]
  · intro s
    by_cases h : (loadUserMappings s).length = 0
    · have h1 : initializeUserMappings s = .valid SUGGESTED_MAPPINGS := if_pos h
      rw [h1]
      unfold initializeUserMappings
      split <;> rfl
    · have h1 : initializeUserMappings s = s := if_neg h
      rw [h1, h1]

/-- Witness for C7 at a concrete non-empty persisted rule set. -/
theorem c7_initialize_only_if_empty_witness :
    ([("uber", "Transportation")] : CategoryMapping) ≠ [] ∧
    initializeUserMappings (.valid [("uber", "Transportation")]) =
      .valid [("uber", "Transportation")] :=
  ⟨by decide,
    c7_initialize_only_if_empty.1 [("uber", "Transportation")] (by decide)⟩

/-- C10: the active keyword rule set is never empty — `getActiveMappings`
returns the full suggested template exactly when the persisted user set is
empty and the user set otherwise; hence deleting the last remaining user
rule makes the next `getActiveMappings` return the whole suggested
template again. -/
theorem c10_active_set_never_empty :
    (∀ s : UserRuleStore, getActiveMappings s ≠ []) ∧
    (∀ s : UserRuleStore, loadUserMappings s = [] →
      getActiveMappings s = SUGGESTED_MAPPINGS) ∧
    (∀ s : UserRuleStore, loadUserMappings s ≠ [] →
      getActiveMappings s = loadUserMappings s) ∧
    (∀ keyword category : String,
      getActiveMappings
          (deleteMapping keyword
            (.valid [(trimStr (lowerStr keyword), category)])) =
        SUGGESTED_MAPPINGS) := by
  refine ⟨?_, ?_, ?_, ?_⟩
  · intro s
    unfold getActiveMappings
    by_cases h : (loadUserMappings s).length = 0
    · simp only [h, if_true]
      decide
    · simp only [h, if_false]
      simpa [List.length_eq_zero] using h
  · intro s hs
    simp [getActiveMappings, hs]
  · intro s hs
    simp [getActiveMappings, List.length_eq_zero, hs]
  · intro keyword category
    simp [deleteMapping, loadUserMappings, getActiveMappings]

/-- Witness for C10: an empty user set yields the suggested template, a
singleton user set is returned as-is, and deleting the only user rule
re-enables the whole suggested template. -/
theorem c10_active_set_never_empty_witness :
    getActiveMappings (.valid ([] : CategoryMapping)) = SUGGESTED_MAPPINGS ∧
    getActiveMappings (.valid [("a", "B")]) = [("a", "B")] ∧
    getActiveMappings
        (deleteMapping "Uber "
          (.valid [(trimStr (lowerStr "Uber "), "Transportation")])) =
      SUGGESTED_MAPPINGS :=
  ⟨c10_active_set_never_empty.2.1 (.valid []) rfl,
    c10_active_set_never_empty.2.2.1 (.valid [("a", "B")]) (by decide),
    c10_active_set_never_empty.2.2.2 "Uber " "Transportation"⟩

/-- C5 counterexample: `handleAddMapping` accepts an amount-mode form whose
amount column was left blank and creates (via `createFieldMapping`) a
mapping with *neither* amount representation populated, so a mapping in
use need not satisfy the exactly-one-representation invariant. -/
theorem c5_amount_invariant_counterexample :
    handleAddMapping "0" "t0" blankAmountForm = some blankAmountMapping ∧
    amountInvariant blankAmountMapping = false := by
  exact ⟨by decide, by decide⟩

/-- C5 (amended): `createFieldMapping` copies the caller's options, so its
result satisfies the invariant whenever the options populate exactly one
representation; every built-in default satisfies it; and `handleAddMapping`
never populates both representations — but it does not enforce that one is
populated. -/
theorem c5_amount_invariant_amended :
    (∀ (ts iso bankName starterWord dateColumn descriptionColumn : String)
        (options : MappingOptions),
      (options.amountColumn.isSome = true ∧ options.withdrawalColumn = none ∧
          options.depositColumn = none) ∨
        (options.amountColumn = none ∧ options.withdrawalColumn.isSome = true ∧
          options.depositColumn.isSome = true) →
      amountInvariant (createFieldMapping ts iso bankName starterWord dateColumn
          descriptionColumn options) = true) ∧
    (∀ (now : String) (m : FieldMapping), m ∈ DEFAULT_MAPPINGS now →
      amountInvariant m = true) ∧
    (∀ (ts iso : String) (f : NewMappingForm) (m : FieldMapping),
      handleAddMapping ts iso f = some m →
      ¬(m.amountColumn.isSome = true ∧
        (m.withdrawalColumn.isSome = true ∨ m.depositColumn.isSome = true))) := by
  refine ⟨?_, ?_, ?_⟩
  · rintro ts iso bn sw dc de options (⟨h1, h2, h3⟩ | ⟨h1, h2, h3⟩) <;>
      simp [amountInvariant, createFieldMapping, h1, h2, h3]
  · intro now m hm
    fin_cases hm <;> rfl
  · intro ts iso f m hmap
    unfold handleAddMapping at hmap
    split at hmap
    · exact Option.noConfusion hmap
    · rw [Option.some.injEq] at hmap
      subst hmap
      cases hua : f.useAmountColumn <;>
        simp [createFieldMapping, hua]

/-- Witness for the amended C5: a well-formed amount-mode option set, a
built-in mapping, and a concrete `handleAddMapping` result. -/
theorem c5_amount_invariant_amended_witness :
    amountInvariant (createFieldMapping "1" "t1" "B" "S" "D" "X"
        { amountColumn := some "Amount" }) = true ∧
    amountInvariant ((DEFAULT_MAPPINGS "t").getD 0 blankAmountMapping) = true ∧
    ¬(blankAmountMapping.amountColumn.isSome = true ∧
        (blankAmountMapping.withdrawalColumn.isSome = true ∨
          blankAmountMapping.depositColumn.isSome = true)) :=
  ⟨c5_amount_invariant_amended.1 "1" "t1" "B" "S" "D" "X"
      { amountColumn := some "Amount" } (Or.inl ⟨rfl, rfl, rfl⟩),
    c5_amount_invariant_amended.2.1 "t" _ (by decide),
    c5_amount_invariant_amended.2.2 "0" "t0" blankAmountForm _ (by decide)⟩

/-- C8 (modelled from the spec, `utils/excelParser` being absent from the
corpus): in amount-column mode with no type column, a negative amount cell
yields a debit of the absolute value and a non-negative cell a credit of
that value; the stored amount is never negative. -/
theorem c8_amount_sign_resolution :
    ∀ (date description : String) (v : Rat), description ≠ "" →
      (v < 0 →
        (parseAmountModeRow date description v).type = "debit" ∧
        (parseAmountModeRow date description v).amount = -v) ∧
      (0 ≤ v →
        (parseAmountModeRow date description v).type = "credit" ∧
        (parseAmountModeRow date description v).amount = v) ∧
      0 ≤ (parseAmountModeRow date description v).amount ∧
      (parseAmountModeRow date description v).success = true := by
  intro date description v hd
  by_cases hv : v < 0
  · refine ⟨fun _ => ?_, fun h0 => absurd h0 (by simpa using hv), ?_, ?_⟩ <;>
      simp [parseAmountModeRow, hd, hv]
    linarith
  · refine ⟨fun h0 => absurd h0 hv, fun _ => ?_, ?_, ?_⟩ <;>
      simp [parseAmountModeRow, hd, hv]
    linarith

/-- Witness for C8: a −500 amount cell becomes a debit of 500. -/
theorem c8_amount_sign_resolution_witness :
    ("ATM WDL" : String) ≠ "" ∧ ((-500 : Rat) < 0) ∧
    (parseAmountModeRow "01/01/2024" "ATM WDL" (-500)).type = "debit" ∧
    (parseAmountModeRow "01/01/2024" "ATM WDL" (-500)).amount = 500 :=
  ⟨by decide, by norm_num,
    ((c8_amount_sign_resolution "01/01/2024" "ATM WDL" (-500)
        (by decide)).1 (by norm_num)).1,
    by
      have h := ((c8_amount_sign_resolution "01/01/2024" "ATM WDL" (-500)
        (by decide)).1 (by norm_num)).2
      simpa using h⟩

/-- One key of the diff loop in `saveFieldMappings` stores nothing exactly when
the field is unchanged. -/
theorem diffField_eq_none {α : Type} [DecidableEq α] (x y : α) :
    diffField x y = none ↔ x = y := by
  unfold diffField; split <;> simp_all

/-- Applying one stored diff key over the seed value recovers the new value. -/
theorem diffField_getD {α : Type} [DecidableEq α] (x y : α) :
    (diffField x y).getD y = x := by
  unfold diffField; split <;> simp_all

/-- An unmodified mapping diffs to the empty diff object. -/
theorem diffFM_self (a : FieldMapping) : diffFM a a = {} := by
  simp [diffFM, diffField]

/-- Merging a mapping's diff against the seed back over the seed recovers the
mapping. -/
theorem applyDiff_diffFM (a b : FieldMapping) : applyDiff b (diffFM a b) = a := by
  cases a; cases b; simp [applyDiff, diffFM, diffField_getD]

/-- The diff object is empty exactly for an unmodified mapping. -/
theorem diffFM_eq_empty_iff (a b : FieldMapping) : diffFM a b = {} ↔ a = b := by
  cases a; cases b
  simp [diffFM, diffField_eq_none, FieldMapping.mk.injEq, FieldDiff.mk.injEq]

/-- C4 counterexample: removing the generic profile's optional type column
(its only `undefined`-valued modification) produces a non-empty in-memory
diff whose single entry `JSON.stringify` drops, so the persisted diff is
`\x7b\x7d` and re-loading restores the seed value — the save-then-load
round-trip fails for this modified built-in mapping. -/
theorem c4_roundtrip_counterexample :
    genericNoType.id = "generic-default" ∧ genericNoType.isDefault = true ∧
    ¬(loadFieldMappings "T"
        (.valid (saveFieldMappings "T" ((DEFAULT_MAPPINGS "T").map
          (fun d => if d.id = "generic-default" then genericNoType else d))).2)
        (.valid (saveFieldMappings "T" ((DEFAULT_MAPPINGS "T").map
          (fun d => if d.id = "generic-default" then genericNoType else d))).1) =
      (DEFAULT_MAPPINGS "T").map
        (fun d => if d.id = "generic-default" then genericNoType else d)) ∧
    loadFieldMappings "T"
        (.valid (saveFieldMappings "T" ((DEFAULT_MAPPINGS "T").map
          (fun d => if d.id = "generic-default" then genericNoType else d))).2)
        (.valid (saveFieldMappings "T" ((DEFAULT_MAPPINGS "T").map
          (fun d => if d.id = "generic-default" then genericNoType else d))).1) =
      DEFAULT_MAPPINGS "T" := by
  refine ⟨rfl, rfl, by decide, by decide⟩

/-- C4 (amended): replacing one built-in mapping by a modified version with the
same id (still flagged built-in) whose diff against the seed survives JSON
serialization — i.e. no field was set to `undefined` — and then saving and
re-loading reproduces exactly the modified mapping list; saving the
unmodified built-ins stores nothing; a non-built-in mapping is persisted
in full; and discarding the stored diffs (reset to defaults) makes
`loadFieldMappings` reproduce the original built-in values exactly. -/
theorem c4_builtin_diff_roundtrip :
    (∀ (now : String) (m0 mNew : FieldMapping),
      m0 ∈ DEFAULT_MAPPINGS now →
      mNew.id = m0.id →
      mNew.isDefault = true →
      stringifyDiff (diffFM mNew m0) = diffFM mNew m0 →
      loadFieldMappings now
          (.valid (saveFieldMappings now ((DEFAULT_MAPPINGS now).map
            (fun d => if d.id = m0.id then mNew else d))).2)
          (.valid (saveFieldMappings now ((DEFAULT_MAPPINGS now).map
            (fun d => if d.id = m0.id then mNew else d))).1) =
        (DEFAULT_MAPPINGS now).map (fun d => if d.id = m0.id then mNew else d)) ∧
    (∀ now : String, saveFieldMappings now (DEFAULT_MAPPINGS now) = ([], [])) ∧
    (∀ (now : String) (c : FieldMapping), c.isDefault = false →
      saveFieldMappings now [c] = ([], [c])) ∧
    (∀ now : String, loadFieldMappings now .absent .absent = DEFAULT_MAPPINGS now) := by
  refine ⟨?_, ?_, ?_, fun now => rfl⟩
  · intro now m0 mNew hm h1 h2 hjson
    obtain ⟨mid, mb, msw, mdc, mde, mac, mwc, mpc, mtc, mdef, mca⟩ := mNew
    replace h1 : mid = m0.id := h1
    replace h2 : mdef = true := h2
    subst h2
    fin_cases hm
    · dsimp only at h1 ⊢
      subst h1
      by_cases hEq : (⟨"hdfc-default", mb, msw, mdc, mde, mac, mwc, mpc, mtc, true, mca⟩ : FieldMapping) = ⟨"hdfc-default", "HDFC Bank", "Date", "Date", "Narration", none, some "Withdrawal Amt.", some "Deposit Amt.", none, true, now⟩
      · rw [hEq]
        simp +decide [saveFieldMappings, loadFieldMappings, DEFAULT_MAPPINGS,
          lookupDiff, List.find?, diffFM_self]
      · have hsave : saveFieldMappings now ((DEFAULT_MAPPINGS now).map
            (fun d => if d.id = "hdfc-default" then (⟨"hdfc-default", mb, msw, mdc, mde, mac, mwc, mpc, mtc, true, mca⟩ : FieldMapping) else d)) =
            ([("hdfc-default", diffFM (⟨"hdfc-default", mb, msw, mdc, mde, mac, mwc, mpc, mtc, true, mca⟩ : FieldMapping) ⟨"hdfc-default", "HDFC Bank", "Date", "Date", "Narration", none, some "Withdrawal Amt.", some "Deposit Amt.", none, true, now⟩)], []) := by
          simp +decide [saveFieldMappings, DEFAULT_MAPPINGS, List.find?, diffFM_self,
            diffFM_eq_empty_iff, -FieldMapping.mk.injEq, hEq, hjson]
        rw [hsave]
        simp +decide [loadFieldMappings, DEFAULT_MAPPINGS, lookupDiff,
          List.find?, applyDiff_diffFM]
    · dsimp only at h1 ⊢
      subst h1
      by_cases hEq : (⟨"icici-default", mb, msw, mdc, mde, mac, mwc, mpc, mtc, true, mca⟩ : FieldMapping) = ⟨"icici-default", "ICICI Bank", "Transaction", "Transaction Date", "Transaction Remarks", none, some "Withdrawal Amount (INR )", some "Deposit Amount (INR )", none, true, now⟩
      · rw [hEq]
        simp +decide [saveFieldMappings, loadFieldMappings, DEFAULT_MAPPINGS,
          lookupDiff, List.find?, diffFM_self]
      · have hsave : saveFieldMappings now ((DEFAULT_MAPPINGS now).map
            (fun d => if d.id = "icici-default" then (⟨"icici-default", mb, msw, mdc, mde, mac, mwc, mpc, mtc, true, mca⟩ : FieldMapping) else d)) =
            ([("icici-default", diffFM (⟨"icici-default", mb, msw, mdc, mde, mac, mwc, mpc, mtc, true, mca⟩ : FieldMapping) ⟨"icici-default", "ICICI Bank", "Transaction", "Transaction Date", "Transaction Remarks", none, some "Withdrawal Amount (INR )", some "Deposit Amount (INR )", none, true, now⟩)], []) := by
          simp +decide [saveFieldMappings, DEFAULT_MAPPINGS, List.find?, diffFM_self,
            diffFM_eq_empty_iff, -FieldMapping.mk.injEq, hEq, hjson]
        rw [hsave]
        simp +decide [loadFieldMappings, DEFAULT_MAPPINGS, lookupDiff,
          List.find?, applyDiff_diffFM]
    · dsimp only at h1 ⊢
      subst h1
      by_cases hEq : (⟨"sbi-default", mb, msw, mdc, mde, mac, mwc, mpc, mtc, true, mca⟩ : FieldMapping) = ⟨"sbi-default", "State Bank of India", "Txn", "Txn Date", "Description", none, some "Debit", some "Credit", none, true, now⟩
      · rw [hEq]
        simp +decide [saveFieldMappings, loadFieldMappings, DEFAULT_MAPPINGS,
          lookupDiff, List.find?, diffFM_self]
      · have hsave : saveFieldMappings now ((DEFAULT_MAPPINGS now).map
            (fun d => if d.id = "sbi-default" then (⟨"sbi-default", mb, msw, mdc, mde, mac, mwc, mpc, mtc, true, mca⟩ : FieldMapping) else d)) =
            ([("sbi-default", diffFM (⟨"sbi-default", mb, msw, mdc, mde, mac, mwc, mpc, mtc, true, mca⟩ : FieldMapping) ⟨"sbi-default", "State Bank of India", "Txn", "Txn Date", "Description", none, some "Debit", some "Credit", none, true, now⟩)], []) := by
          simp +decide [saveFieldMappings, DEFAULT_MAPPINGS, List.find?, diffFM_self,
            diffFM_eq_empty_iff, -FieldMapping.mk.injEq, hEq, hjson]
        rw [hsave]
        simp +decide [loadFieldMappings, DEFAULT_MAPPINGS, lookupDiff,
          List.find?, applyDiff_diffFM]
    · dsimp only at h1 ⊢
      subst h1
      by_cases hEq : (⟨"axis-default", mb, msw, mdc, mde, mac, mwc, mpc, mtc, true, mca⟩ : FieldMapping) = ⟨"axis-default", "Axis Bank", "Tran", "Tran Date", "Particulars", none, some "Debit", some "Credit", none, true, now⟩
      · rw [hEq]
        simp +decide [saveFieldMappings, loadFieldMappings, DEFAULT_MAPPINGS,
          lookupDiff, List.find?, diffFM_self]
      · have hsave : saveFieldMappings now ((DEFAULT_MAPPINGS now).map
            (fun d => if d.id = "axis-default" then (⟨"axis-default", mb, msw, mdc, mde, mac, mwc, mpc, mtc, true, mca⟩ : FieldMapping) else d)) =
            ([("axis-default", diffFM (⟨"axis-default", mb, msw, mdc, mde, mac, mwc, mpc, mtc, true, mca⟩ : FieldMapping) ⟨"axis-default", "Axis Bank", "Tran", "Tran Date", "Particulars", none, some "Debit", some "Credit", none, true, now⟩)], []) := by
          simp +decide [saveFieldMappings, DEFAULT_MAPPINGS, List.find?, diffFM_self,
            diffFM_eq_empty_iff, -FieldMapping.mk.injEq, hEq, hjson]
        rw [hsave]
        simp +decide [loadFieldMappings, DEFAULT_MAPPINGS, lookupDiff,
          List.find?, applyDiff_diffFM]
    · dsimp only at h1 ⊢
      subst h1
      by_cases hEq : (⟨"generic-default", mb, msw, mdc, mde, mac, mwc, mpc, mtc, true, mca⟩ : FieldMapping) = ⟨"generic-default", "Generic Format", "Date", "Date", "Description", some "Amount", none, none, some "Type", true, now⟩
      · rw [hEq]
        simp +decide [saveFieldMappings, loadFieldMappings, DEFAULT_MAPPINGS,
          lookupDiff, List.find?, diffFM_self]
      · have hsave : saveFieldMappings now ((DEFAULT_MAPPINGS now).map
            (fun d => if d.id = "generic-default" then (⟨"generic-default", mb, msw, mdc, mde, mac, mwc, mpc, mtc, true, mca⟩ : FieldMapping) else d)) =
            ([("generic-default", diffFM (⟨"generic-default", mb, msw, mdc, mde, mac, mwc, mpc, mtc, true, mca⟩ : FieldMapping) ⟨"generic-default", "Generic Format", "Date", "Date", "Description", some "Amount", none, none, some "Type", true, now⟩)], []) := by
          simp +decide [saveFieldMappings, DEFAULT_MAPPINGS, List.find?, diffFM_self,
            diffFM_eq_empty_iff, -FieldMapping.mk.injEq, hEq, hjson]
        rw [hsave]
        simp +decide [loadFieldMappings, DEFAULT_MAPPINGS, lookupDiff,
          List.find?, applyDiff_diffFM]
  · intro now
    simp +decide [saveFieldMappings, DEFAULT_MAPPINGS, List.find?, diffFM_self]
  · intro now c h
    simp [saveFieldMappings, h]

/-- Witness for the amended C4: changing the SBI profile's date column to
"Value Date" (a defined value, so the diff survives serialization), saving
and re-loading reproduces the modified list; a custom mapping is saved in
full. -/
theorem c4_builtin_diff_roundtrip_witness :
    loadFieldMappings "T"
        (.valid (saveFieldMappings "T" ((DEFAULT_MAPPINGS "T").map
          (fun d => if d.id = "sbi-default" then
            (⟨"sbi-default", "State Bank of India", "Txn", "Value Date",
              "Description", none, some "Debit", some "Credit", none, true,
              "T"⟩ : FieldMapping) else d))).2)
        (.valid (saveFieldMappings "T" ((DEFAULT_MAPPINGS "T").map
          (fun d => if d.id = "sbi-default" then
            (⟨"sbi-default", "State Bank of India", "Txn", "Value Date",
              "Description", none, some "Debit", some "Credit", none, true,
              "T"⟩ : FieldMapping) else d))).1) =
      (DEFAULT_MAPPINGS "T").map (fun d => if d.id = "sbi-default" then
        (⟨"sbi-default", "State Bank of India", "Txn", "Value Date",
          "Description", none, some "Debit", some "Credit", none, true,
          "T"⟩ : FieldMapping) else d) ∧
    saveFieldMappings "T"
        [⟨"custom-9", "My Bank", "Date", "Date", "Desc", some "Amount", none,
          none, none, false, "T2"⟩] =
      ([], [⟨"custom-9", "My Bank", "Date", "Date", "Desc", some "Amount", none,
        none, none, false, "T2"⟩]) :=
  ⟨c4_builtin_diff_roundtrip.1 "T"
      ⟨"sbi-default", "State Bank of India", "Txn", "Txn Date", "Description",
        none, some "Debit", some "Credit", none, true, "T"⟩
      ⟨"sbi-default", "State Bank of India", "Txn", "Value Date", "Description",
        none, some "Debit", some "Credit", none, true, "T"⟩
      (by decide) rfl rfl (by decide),
    c4_builtin_diff_roundtrip.2.2.1 "T"
      ⟨"custom-9", "My Bank", "Date", "Date", "Desc", some "Amount", none,
        none, none, false, "T2"⟩ rfl⟩
